import Mathlib

/-
Verification of the triggered-acquisition sequencer of the agilent_663xxx
driver (src/agilent_663xxx.py), centred on Log.start_meas_sample and the
operation-status register accessors it uses.

Shallow embedding conventions:
* Register values read from and written to the instrument are naturals
  (the Python code parses them with int() from SCPI reply strings).
* The instrument/transport is modelled by an explicit register state plus
  a trace of bus-level operations; queries that merely return data the
  sequencer discards are recorded as trace events.
* Rational numbers stand in for Python floats (exact arithmetic).
* The SRQ wait (bus.wait_for_srq) either succeeds or raises a timeout;
  a raise aborts the remainder of the method, which is modelled by
  returning early with ok := false.
* The comma-separated fetch replies and their numpy parsing belong to the
  external transport/numpy collaborators; the environment provides the
  parsed float array for each fetch query directly.
-/

namespace Agilent663

/-- Identifier of one of the three operation-status registers the
sequencer saves, mutates and restores. -/
inductive RegId where
  | ptr
  | ntr
  | enab
deriving DecidableEq, Repr

/-- Bus-level operations observable on the transport during a run of
start_meas_sample. A writeReg r v event stands for the SCPI text write
":STAT:OPER:PTR v" (resp. NTR / ENAB); writeSre v stands for "*SRE v";
cmd w is a plain write such as "*WAI"; msg s is a console print. -/
inductive Op where
  | query (q : String)
  | writeReg (r : RegId) (v : ℕ)
  | writeSre (v : ℕ)
  | cmd (w : String)
  | waitSrq (ms : ℕ)
  | msg (s : String)
deriving DecidableEq, Repr

/-- Instrument-side register state: the three operation-status registers
and the service-request enable register. -/
structure Regs where
  ptr : ℕ
  ntr : ℕ
  enab : ℕ
  sre : ℕ
deriving DecidableEq, Repr

/-- Mutable state threaded through the run: instrument registers, the
log_data mapping being built, and the trace of bus operations. -/
structure S where
  regs : Regs
  log_data : List (String × List ℚ)
  tr : List Op
deriving Repr

/-- Validate.int_range: lambda x, y: x in range(y[0], y[1] + 1). -/
def int_range (x : ℕ) (y : ℕ × ℕ) : Bool :=
  decide (y.1 ≤ x) && decide (x < y.2 + 1)

/-- Validate.int_rng_tuple: returns the SCPI argument string when the
value lies in the validation range and a ValueError otherwise. -/
def int_rng_tuple (validation_set : ℕ × ℕ) (value : ℕ) : Except String String :=
  if int_range value validation_set then Except.ok (toString value)
  else Except.error ("ValueError! Not in range:(int) (" ++ toString validation_set.1
    ++ ", " ++ toString validation_set.2 ++ ")")

/-- ValidateRegister.register_16: validation range (0, 32767). -/
def register_16 (value : ℕ) : Except String String :=
  int_rng_tuple (0, 32767) value

/-- ValidateRegister.register_8: validation range (0, 128); used by
Common.sre. -/
def register_8 (value : ℕ) : Except String String :=
  int_rng_tuple (0, 128) value

/-- Shared write path of the Status.opr_*_reg accessors: Command.read_write
with the register_16 validator. A rejected value prints a warning (msg on
the trace) and issues no bus write; an accepted value issues the bus write
and updates the corresponding instrument register. -/
def status_reg_write (upd : Regs → ℕ → Regs) (r : RegId) (reg_value : ℕ) (s : S) : S :=
  match register_16 reg_value with
  | Except.error e => { s with tr := s.tr ++ [Op.msg e] }
  | Except.ok _ =>
      { s with
        regs := upd s.regs reg_value
        tr := s.tr ++ [Op.writeReg r reg_value] }

/-- Status.opr_ptr_reg on the write path (":STAT:OPER:PTR"). -/
def opr_ptr_reg_write (reg_value : ℕ) (s : S) : S :=
  status_reg_write (fun g v => { g with ptr := v }) RegId.ptr reg_value s

/-- Status.opr_ntr_reg on the write path (":STAT:OPER:NTR"). -/
def opr_ntr_reg_write (reg_value : ℕ) (s : S) : S :=
  status_reg_write (fun g v => { g with ntr := v }) RegId.ntr reg_value s

/-- Status.opr_enable_reg on the write path (":STAT:OPER:ENAB"). -/
def opr_enable_reg_write (reg_value : ℕ) (s : S) : S :=
  status_reg_write (fun g v => { g with enab := v }) RegId.enab reg_value s

/-- Common.sre on the write path ("*SRE"), validated by register_8. -/
def sre_write (reg_value : ℕ) (s : S) : S :=
  match register_8 reg_value with
  | Except.error e => { s with tr := s.tr ++ [Op.msg e] }
  | Except.ok _ =>
      { s with
        regs := { s.regs with sre := reg_value }
        tr := s.tr ++ [Op.writeSre reg_value] }

/-- Python substring containment needle in hay on lists of characters:
true iff needle occurs contiguously in hay (the empty needle always
occurs). -/
def py_in_chars (a : List Char) : List Char → Bool
  | [] => a.isEmpty
  | c :: rest => List.isPrefixOf a (c :: rest) || py_in_chars a rest

/-- Python string containment a in b. -/
def py_in_str (a b : String) : Bool :=
  py_in_chars a.data b.data

/-- Ceiling of a rational, computable (ceil(n/d) = -fdiv(-n, d)). -/
def rat_ceil (q : ℚ) : ℤ :=
  -(Int.fdiv (-q.num) (q.den : ℤ))

/-- Modelled from the documented semantics of the external numpy
collaborator: np.arange(0, stop, step) in exact rational arithmetic has
ceil(stop / step) elements (none when that is nonpositive), the i-th
being i * step. -/
def np_arange (stop step : ℚ) : List ℚ :=
  (List.range (Int.toNat (rat_ceil (stop / step)))).map (fun i => (i : ℚ) * step)

/-- Per-call environment: the instrument register state at entry, the
value of the operation event register read after the SRQ wait, the
configured sense string (trig._trig["sense"]), the parsed sample_points
and integration_time settings (log._log entries, parsed with float()),
the parsed reply for each fetch query, and whether the SRQ wait times
out. -/
structure Env where
  regs0 : Regs
  event_reg : ℕ
  sense : String
  sample_points : ℚ
  integration_time : ℚ
  fetch : String → List ℚ
  srq_timeout : Bool

/-- Result of a run: ok is false when the wait_for_srq timeout exception
propagated out of the method; regs, log_data and tr are the instrument
registers, result mapping and bus trace at the moment the method
returned or raised. -/
structure RunOut where
  ok : Bool
  regs : Regs
  log_data : List (String × List ℚ)
  tr : List Op
deriving Repr

/-- Appends one bus operation to the trace. -/
def emit (o : Op) (s : S) : S :=
  { s with tr := s.tr ++ [o] }

/-- Adds one key/value pair to the log_data mapping (dict insertion of a
fresh key). -/
def log_append (k : String) (d : List ℚ) (s : S) : S :=
  { s with log_data := s.log_data ++ [(k, d)] }

/-- Packages the final state of a run. -/
def finishRun (ok : Bool) (s : S) : RunOut :=
  { ok := ok, regs := s.regs, log_data := s.log_data, tr := s.tr }

/-- Log.start_meas_sample (src/agilent_663xxx.py lines 456-528),
translated statement by statement. The snapshot reads happen before any
write, so the values they return are the initial register values. -/
def start_meas_sample (env : Env) (bus_triggered : Bool) : RunOut :=
  -- self.log_data = {}
  let s0 : S := { regs := env.regs0, log_data := [], tr := [] }
  -- self.status.get_opr_event_reg()  (clears any stale event)
  let s1 : S := emit (Op.query "STAT:OPER?") s0
  -- opr_ptr_reg = int(self.status.opr_ptr_reg()) and the two other reads
  let opr_ptr_reg := env.regs0.ptr
  let opr_ntr_reg := env.regs0.ntr
  let opr_enable_reg := env.regs0.enab
  let s2 : S := emit (Op.query ":STAT:OPER:ENAB?")
    (emit (Op.query ":STAT:OPER:NTR?") (emit (Op.query ":STAT:OPER:PTR?") s1))
  let wait_for_trig : ℕ := 32
  let sre_status_bit : ℕ := 128
  -- if opr_ptr_reg & wait_for_trig: opr_ptr_reg(opr_ptr_reg - wait_for_trig)
  let s3 : S := if opr_ptr_reg &&& wait_for_trig ≠ 0 then
      opr_ptr_reg_write (opr_ptr_reg - wait_for_trig) s2
    else s2
  -- if not opr_ntr_reg & wait_for_trig: opr_ntr_reg(opr_ntr_reg + wait_for_trig)
  let s4 : S := if opr_ntr_reg &&& wait_for_trig = 0 then
      opr_ntr_reg_write (opr_ntr_reg + wait_for_trig) s3
    else s3
  -- self.status.opr_enable_reg(wait_for_trig)
  let s5 : S := opr_enable_reg_write wait_for_trig s4
  -- self.com.sre(sre_status_bit)
  let s6 : S := sre_write sre_status_bit s5
  -- self.com.wait(); self.trig.initialize_meas_trig()
  let s8 : S := emit (Op.cmd "INIT:NAME ACQ") (emit (Op.cmd "*WAI") s6)
  -- if bus_triggered: self.trig.generate_bus_trig()
  let s9 : S := if bus_triggered then emit (Op.cmd "TRIG:ACQ") s8 else s8
  -- self._bus.wait_for_srq(10000)
  let s10 : S := emit (Op.waitSrq 10000) s9
  if env.srq_timeout then
    -- the timeout exception propagates; nothing after this line runs
    finishRun false s10
  else
    -- self.com.sre(0); event_reg = int(self.status.get_opr_event_reg())
    let event_reg := env.event_reg
    let s12 : S := emit (Op.query "STAT:OPER?") (sre_write 0 s10)
    let s13 : S :=
      if event_reg &&& wait_for_trig ≠ 0 then
        let sA : S :=
          if py_in_str env.sense "\"CURR\"" then
            log_append "current" (env.fetch "FETC:ARR:CURR?")
              (emit (Op.query "FETC:ARR:CURR?") s12)
          else if py_in_str env.sense "\"VOLT\"" then
            log_append "voltage" (env.fetch "FETC:ARR:VOLT?")
              (emit (Op.query "FETC:ARR:VOLT?") s12)
          else
            log_append "voltage" (env.fetch "FETC:ARR:DVM?")
              (emit (Op.query "FETC:ARR:DVM?") s12)
        -- log_data["seconds"] = np.arange(0, t * points, t)
        log_append "seconds"
          (np_arange (env.integration_time * env.sample_points) env.integration_time) sA
      else
        emit (Op.msg ("Unknown error: event reg " ++ toString event_reg)) s12
    -- restore the three saved registers
    let s16 : S := opr_enable_reg_write opr_enable_reg
      (opr_ntr_reg_write opr_ntr_reg (opr_ptr_reg_write opr_ptr_reg s13))
    finishRun true s16

/-- Values written to the operation-status enable register in a trace. -/
def enabWrites (tr : List Op) : List ℕ :=
  tr.filterMap (fun o => match o with
    | Op.writeReg RegId.enab v => some v
    | _ => none)

/-- Values written to the positive-transition register in a trace. -/
def ptrWrites (tr : List Op) : List ℕ :=
  tr.filterMap (fun o => match o with
    | Op.writeReg RegId.ptr v => some v
    | _ => none)

/-- Values written to the negative-transition register in a trace. -/
def ntrWrites (tr : List Op) : List ℕ :=
  tr.filterMap (fun o => match o with
    | Op.writeReg RegId.ntr v => some v
    | _ => none)

/-- Prefix of a trace strictly before the first write to the enable
register. -/
def preEnabWrite (tr : List Op) : List Op :=
  tr.takeWhile (fun o => match o with
    | Op.writeReg RegId.enab _ => false
    | _ => true)

/-- Index of the first console message in a trace. -/
def firstMsgIdx (tr : List Op) : ℕ :=
  tr.findIdx (fun o => match o with
    | Op.msg _ => true
    | _ => false)

/-- Index of the first write to the positive-transition register in a
trace. -/
def firstPtrWriteIdx (tr : List Op) : ℕ :=
  tr.findIdx (fun o => match o with
    | Op.writeReg RegId.ptr _ => true
    | _ => false)

/-- Error text produced by register_16 for an out-of-range value. -/
def err_register_16 : String :=
  "ValueError! Not in range:(int) (0, 32767)"

/-- C1 counterexample: with initial registers (ptr, ntr, enable) =
(0, 32, 40000) and a successful trigger, the run reaches the data-ready
branch (the result mapping receives the keys current and seconds), yet
the final enable register is 32, not the initial 40000: the restoring
write is rejected by the register_16 validator, so the claim fails for
this initial triple. -/
def cexEnvC1 : Env :=
  { regs0 := { ptr := 0, ntr := 32, enab := 40000, sre := 0 }, event_reg := 32,
    sense := "CURR", sample_points := 1, integration_time := 1,
    fetch := fun _ => [], srq_timeout := false }

/-- C2 witness: a concrete timed-out run satisfying the hypotheses. -/
def envW2 : Env :=
  { regs0 := { ptr := 33, ntr := 0, enab := 7, sre := 0 }, event_reg := 32,
    sense := "CURR", sample_points := 1, integration_time := 1,
    fetch := fun _ => [], srq_timeout := true }

/-- C4 witness: a concrete completed run satisfying the hypotheses. -/
def envW4 : Env :=
  { regs0 := { ptr := 33, ntr := 0, enab := 7, sre := 0 }, event_reg := 32,
    sense := "CURR", sample_points := 1, integration_time := 1,
    fetch := fun _ => [], srq_timeout := false }

/-- Suffix of a trace from the first console message onward. -/
def fromFirstMsg (tr : List Op) : List Op :=
  tr.dropWhile (fun o => match o with
    | Op.msg _ => false
    | _ => true)

/-- Environment for the C7 counterexample: saved registers (0, 32, 0) and
an event register without the wait-for-trigger bit. -/
def cexEnvC7 : Env :=
  { regs0 := { ptr := 0, ntr := 32, enab := 0, sre := 0 }, event_reg := 0,
    sense := "CURR", sample_points := 0, integration_time := 1,
    fetch := fun _ => [], srq_timeout := false }

/-- Environment for the C7 amended witness. -/
def envW7 : Env :=
  { regs0 := { ptr := 33, ntr := 0, enab := 7, sre := 0 }, event_reg := 2,
    sense := "CURR", sample_points := 0, integration_time := 1,
    fetch := fun _ => [], srq_timeout := false }

/-- Empty starting state for the C8 accessor theorems. -/
def sW8 : S :=
  { regs := { ptr := 0, ntr := 0, enab := 0, sre := 0 }, log_data := [], tr := [] }

/-- Environment for the C3 witness: five samples at 2 ms. -/
def envW3 : Env :=
  { regs0 := { ptr := 0, ntr := 32, enab := 0, sre := 0 }, event_reg := 32,
    sense := "CURR", sample_points := 5, integration_time := 1/500,
    fetch := fun _ => [], srq_timeout := false }

/-- Environment for the C1 amended witness. -/
def envW1 : Env :=
  { regs0 := { ptr := 33, ntr := 0, enab := 7, sre := 0 }, event_reg := 32,
    sense := "CURR", sample_points := 1, integration_time := 1,
    fetch := fun _ => [], srq_timeout := false }

/-- Environment for the C6 witness. -/
def envW6 : Env :=
  { regs0 := { ptr := 0, ntr := 32, enab := 0, sre := 0 }, event_reg := 32,
    sense := "CURR", sample_points := 1, integration_time := 1,
    fetch := fun _ => [], srq_timeout := false }

/-- Environment for the C9 witness: unexpected-event branch. -/
def envW9 : Env :=
  { regs0 := { ptr := 0, ntr := 32, enab := 0, sre := 0 }, event_reg := 2,
    sense := "CURR", sample_points := 1, integration_time := 1,
    fetch := fun _ => [], srq_timeout := false }

/-- Environment for the C10 witness: the empty sense string is a Python
substring of the quoted CURR literal, so it selects the current fetch. -/
def envW10 : Env :=
  { regs0 := { ptr := 0, ntr := 32, enab := 0, sre := 0 }, event_reg := 32,
    sense := "", sample_points := 1, integration_time := 1,
    fetch := fun _ => [], srq_timeout := false }

theorem register_16_eq_ok (v : ℕ) (h : v ≤ 32767) :
    register_16 v = Except.ok (toString v) := by
  have hc : int_range v (0, 32767) = true := by
    simp only [int_range, Bool.and_eq_true, decide_eq_true_eq]
    omega
  simp [register_16, int_rng_tuple, hc]

theorem register_16_eq_error (v : ℕ) (h : 32767 < v) :
    register_16 v = Except.error err_register_16 := by
  have hc : int_range v (0, 32767) = false := by
    simp only [int_range, Bool.and_eq_false_iff, decide_eq_false_iff_not]
    omega
  simp [register_16, int_rng_tuple, hc]
  rfl

theorem status_reg_write_ok (upd : Regs → ℕ → Regs) (r : RegId) (v : ℕ) (s : S)
    (h : v ≤ 32767) :
    status_reg_write upd r v s =
      { s with
        regs := upd s.regs v
        tr := s.tr ++ [Op.writeReg r v] } := by
  unfold status_reg_write
  rw [register_16_eq_ok v h]

theorem status_reg_write_error (upd : Regs → ℕ → Regs) (r : RegId) (v : ℕ) (s : S)
    (h : 32767 < v) :
    status_reg_write upd r v s = { s with tr := s.tr ++ [Op.msg err_register_16] } := by
  unfold status_reg_write
  rw [register_16_eq_error v h]

theorem status_reg_write_tr (upd : Regs → ℕ → Regs) (r : RegId) (v : ℕ) (s : S) :
    (status_reg_write upd r v s).tr =
      s.tr ++ (if v ≤ 32767 then [Op.writeReg r v] else [Op.msg err_register_16]) := by
  by_cases h : v ≤ 32767
  · rw [status_reg_write_ok upd r v s h, if_pos h]
  · rw [status_reg_write_error upd r v s (by omega), if_neg h]

theorem status_reg_write_log (upd : Regs → ℕ → Regs) (r : RegId) (v : ℕ) (s : S) :
    (status_reg_write upd r v s).log_data = s.log_data := by
  by_cases h : v ≤ 32767
  · rw [status_reg_write_ok upd r v s h]
  · rw [status_reg_write_error upd r v s (by omega)]

theorem opr_ptr_reg_write_ptr (v : ℕ) (s : S) :
    (opr_ptr_reg_write v s).regs.ptr = if v ≤ 32767 then v else s.regs.ptr := by
  unfold opr_ptr_reg_write
  by_cases h : v ≤ 32767
  · rw [status_reg_write_ok _ _ _ _ h, if_pos h]
  · rw [status_reg_write_error _ _ _ _ (by omega), if_neg h]

theorem opr_ptr_reg_write_ntr (v : ℕ) (s : S) :
    (opr_ptr_reg_write v s).regs.ntr = s.regs.ntr := by
  unfold opr_ptr_reg_write
  by_cases h : v ≤ 32767
  · rw [status_reg_write_ok _ _ _ _ h]
  · rw [status_reg_write_error _ _ _ _ (by omega)]

theorem opr_ptr_reg_write_enab (v : ℕ) (s : S) :
    (opr_ptr_reg_write v s).regs.enab = s.regs.enab := by
  unfold opr_ptr_reg_write
  by_cases h : v ≤ 32767
  · rw [status_reg_write_ok _ _ _ _ h]
  · rw [status_reg_write_error _ _ _ _ (by omega)]

theorem opr_ntr_reg_write_ntr (v : ℕ) (s : S) :
    (opr_ntr_reg_write v s).regs.ntr = if v ≤ 32767 then v else s.regs.ntr := by
  unfold opr_ntr_reg_write
  by_cases h : v ≤ 32767
  · rw [status_reg_write_ok _ _ _ _ h, if_pos h]
  · rw [status_reg_write_error _ _ _ _ (by omega), if_neg h]

theorem opr_ntr_reg_write_ptr (v : ℕ) (s : S) :
    (opr_ntr_reg_write v s).regs.ptr = s.regs.ptr := by
  unfold opr_ntr_reg_write
  by_cases h : v ≤ 32767
  · rw [status_reg_write_ok _ _ _ _ h]
  · rw [status_reg_write_error _ _ _ _ (by omega)]

theorem opr_ntr_reg_write_enab (v : ℕ) (s : S) :
    (opr_ntr_reg_write v s).regs.enab = s.regs.enab := by
  unfold opr_ntr_reg_write
  by_cases h : v ≤ 32767
  · rw [status_reg_write_ok _ _ _ _ h]
  · rw [status_reg_write_error _ _ _ _ (by omega)]

theorem opr_enable_reg_write_enab (v : ℕ) (s : S) :
    (opr_enable_reg_write v s).regs.enab = if v ≤ 32767 then v else s.regs.enab := by
  unfold opr_enable_reg_write
  by_cases h : v ≤ 32767
  · rw [status_reg_write_ok _ _ _ _ h, if_pos h]
  · rw [status_reg_write_error _ _ _ _ (by omega), if_neg h]

theorem opr_enable_reg_write_ptr (v : ℕ) (s : S) :
    (opr_enable_reg_write v s).regs.ptr = s.regs.ptr := by
  unfold opr_enable_reg_write
  by_cases h : v ≤ 32767
  · rw [status_reg_write_ok _ _ _ _ h]
  · rw [status_reg_write_error _ _ _ _ (by omega)]

theorem opr_enable_reg_write_ntr (v : ℕ) (s : S) :
    (opr_enable_reg_write v s).regs.ntr = s.regs.ntr := by
  unfold opr_enable_reg_write
  by_cases h : v ≤ 32767
  · rw [status_reg_write_ok _ _ _ _ h]
  · rw [status_reg_write_error _ _ _ _ (by omega)]

theorem sre_write_eq (v : ℕ) (s : S) (h : v ≤ 128) :
    sre_write v s =
      { s with
        regs := { s.regs with sre := v }
        tr := s.tr ++ [Op.writeSre v] } := by
  have hc : int_range v (0, 128) = true := by
    simp only [int_range, Bool.and_eq_true, decide_eq_true_eq]
    omega
  unfold sre_write
  simp [register_8, int_rng_tuple, hc]

theorem land32_eq_zero_iff (n : ℕ) : n &&& 32 = 0 ↔ n / 32 % 2 = 0 := by
  have h1 : n &&& 2 ^ 5 = (Nat.testBit n 5).toNat * 2 ^ 5 := Nat.and_two_pow n 5
  rw [Nat.testBit_to_div_mod] at h1
  have p : (2 : ℕ) ^ 5 = 32 := by norm_num
  rw [p] at h1
  rw [h1]
  by_cases h : n / 32 % 2 = 1
  · simp [h]
  · simp [h]
    omega

theorem np_arange_progression (n : ℕ) (t : ℚ) (ht : 0 < t) :
    np_arange (t * n) t = (List.range n).map (fun i => (i : ℚ) * t) := by
  have hdiv : t * (n : ℚ) / t = (n : ℚ) := mul_div_cancel_left₀ _ (ne_of_gt ht)
  have hceil : rat_ceil ((n : ℚ)) = (n : ℤ) := by
    have h1 : ((n : ℚ)).num = (n : ℤ) := Rat.num_natCast n
    have h2 : ((n : ℚ)).den = 1 := Rat.den_natCast n
    simp only [rat_ceil, h1, h2, Nat.cast_one, Int.fdiv_one, neg_neg]
  simp [np_arange, hdiv, hceil]

theorem status_reg_write_regs (upd : Regs → ℕ → Regs) (r : RegId) (v : ℕ) (s : S) :
    (status_reg_write upd r v s).regs = if v ≤ 32767 then upd s.regs v else s.regs := by
  by_cases h : v ≤ 32767
  · rw [status_reg_write_ok upd r v s h, if_pos h]
  · rw [status_reg_write_error upd r v s (by omega), if_neg h]

theorem sre_write_128_eq (s : S) :
    sre_write 128 s =
      { s with
        regs := { s.regs with sre := 128 }
        tr := s.tr ++ [Op.writeSre 128] } :=
  sre_write_eq 128 s (by norm_num)

theorem sre_write_0_eq (s : S) :
    sre_write 0 s =
      { s with
        regs := { s.regs with sre := 0 }
        tr := s.tr ++ [Op.writeSre 0] } :=
  sre_write_eq 0 s (by norm_num)

theorem emit_regs (o : Op) (s : S) : (emit o s).regs = s.regs := rfl

theorem emit_log (o : Op) (s : S) : (emit o s).log_data = s.log_data := rfl

theorem emit_tr (o : Op) (s : S) : (emit o s).tr = s.tr ++ [o] := rfl

theorem log_append_regs (k : String) (d : List ℚ) (s : S) :
    (log_append k d s).regs = s.regs := rfl

theorem log_append_log (k : String) (d : List ℚ) (s : S) :
    (log_append k d s).log_data = s.log_data ++ [(k, d)] := rfl

theorem log_append_tr (k : String) (d : List ℚ) (s : S) :
    (log_append k d s).tr = s.tr := rfl

theorem finishRun_ok (k : Bool) (s : S) : (finishRun k s).ok = k := rfl

theorem finishRun_regs (k : Bool) (s : S) : (finishRun k s).regs = s.regs := rfl

theorem finishRun_log (k : Bool) (s : S) : (finishRun k s).log_data = s.log_data := rfl

theorem finishRun_tr (k : Bool) (s : S) : (finishRun k s).tr = s.tr := rfl

theorem opr_ptr_reg_write_tr (v : ℕ) (s : S) :
    (opr_ptr_reg_write v s).tr =
      s.tr ++ (if v ≤ 32767 then [Op.writeReg RegId.ptr v] else [Op.msg err_register_16]) :=
  status_reg_write_tr _ _ v s

theorem opr_ntr_reg_write_tr (v : ℕ) (s : S) :
    (opr_ntr_reg_write v s).tr =
      s.tr ++ (if v ≤ 32767 then [Op.writeReg RegId.ntr v] else [Op.msg err_register_16]) :=
  status_reg_write_tr _ _ v s

theorem opr_enable_reg_write_tr (v : ℕ) (s : S) :
    (opr_enable_reg_write v s).tr =
      s.tr ++ (if v ≤ 32767 then [Op.writeReg RegId.enab v] else [Op.msg err_register_16]) :=
  status_reg_write_tr _ _ v s

theorem opr_ptr_reg_write_log (v : ℕ) (s : S) :
    (opr_ptr_reg_write v s).log_data = s.log_data :=
  status_reg_write_log _ _ v s

theorem opr_ntr_reg_write_log (v : ℕ) (s : S) :
    (opr_ntr_reg_write v s).log_data = s.log_data :=
  status_reg_write_log _ _ v s

theorem opr_enable_reg_write_log (v : ℕ) (s : S) :
    (opr_enable_reg_write v s).log_data = s.log_data :=
  status_reg_write_log _ _ v s

theorem sre_write_regs_ptr (v : ℕ) (s : S) : (sre_write v s).regs.ptr = s.regs.ptr := by
  unfold sre_write
  rcases register_8 v with e | a <;> rfl

theorem sre_write_regs_ntr (v : ℕ) (s : S) : (sre_write v s).regs.ntr = s.regs.ntr := by
  unfold sre_write
  rcases register_8 v with e | a <;> rfl

theorem sre_write_regs_enab (v : ℕ) (s : S) : (sre_write v s).regs.enab = s.regs.enab := by
  unfold sre_write
  rcases register_8 v with e | a <;> rfl

theorem sre_write_log (v : ℕ) (s : S) : (sre_write v s).log_data = s.log_data := by
  unfold sre_write
  rcases register_8 v with e | a <;> rfl

theorem sre_write_128_tr (s : S) : (sre_write 128 s).tr = s.tr ++ [Op.writeSre 128] := rfl

theorem sre_write_0_tr (s : S) : (sre_write 0 s).tr = s.tr ++ [Op.writeSre 0] := rfl

theorem S_regs_ite (c : Prop) [Decidable c] (a b : S) :
    (if c then a else b).regs = if c then a.regs else b.regs :=
  apply_ite S.regs c a b

theorem S_log_ite (c : Prop) [Decidable c] (a b : S) :
    (if c then a else b).log_data = if c then a.log_data else b.log_data :=
  apply_ite S.log_data c a b

theorem S_tr_ite (c : Prop) [Decidable c] (a b : S) :
    (if c then a else b).tr = if c then a.tr else b.tr :=
  apply_ite S.tr c a b

theorem Regs_ptr_ite (c : Prop) [Decidable c] (a b : Regs) :
    (if c then a else b).ptr = if c then a.ptr else b.ptr :=
  apply_ite Regs.ptr c a b

theorem Regs_ntr_ite (c : Prop) [Decidable c] (a b : Regs) :
    (if c then a else b).ntr = if c then a.ntr else b.ntr :=
  apply_ite Regs.ntr c a b

theorem Regs_enab_ite (c : Prop) [Decidable c] (a b : Regs) :
    (if c then a else b).enab = if c then a.enab else b.enab :=
  apply_ite Regs.enab c a b

set_option maxRecDepth 8000 in
/-- C1 (amended): for every initial register triple read at the start of a
run whose enable value is at most 32767 (the range the register_16
validator accepts for the restoring write), a run that completes the
sequence (no SRQ timeout), whether through the data-ready branch or the
unexpected-event branch, leaves all three operation-status registers
equal to their initial values. The positive- and negative-transition
registers are restored for every initial value, because an out-of-range
transient or restoring write is silently dropped by the validator. -/
theorem start_meas_sample_restores_registers (env : Env) (b : Bool)
    (ht : env.srq_timeout = false) (he : env.regs0.enab ≤ 32767) :
    (start_meas_sample env b).regs.ptr = env.regs0.ptr ∧
    (start_meas_sample env b).regs.ntr = env.regs0.ntr ∧
    (start_meas_sample env b).regs.enab = env.regs0.enab := by
  rcases env with ⟨⟨p0, n0, e0, sr0⟩, ev, sns, sp, it, f, tmo⟩
  cases tmo with
  | true => simp at ht
  | false =>
    have he' : e0 ≤ 32767 := he
    by_cases hb1 : p0 &&& 32 = 0 <;> by_cases hb2 : n0 &&& 32 = 0
    all_goals
      simp only [start_meas_sample, ne_eq, hb1, hb2, not_true_eq_false,
        not_false_eq_true, if_true, if_false, ite_true, ite_false,
        Bool.false_eq_true, emit_regs, log_append_regs,
        finishRun_regs, opr_ptr_reg_write_ptr,
        opr_ptr_reg_write_ntr, opr_ptr_reg_write_enab, opr_ntr_reg_write_ptr,
        opr_ntr_reg_write_ntr, opr_ntr_reg_write_enab, opr_enable_reg_write_ptr,
        opr_enable_reg_write_ntr, opr_enable_reg_write_enab, sre_write_regs_ptr,
        sre_write_regs_ntr, sre_write_regs_enab, S_regs_ite, S_log_ite, S_tr_ite,
        Regs_ptr_ite, Regs_ntr_ite, Regs_enab_ite, ite_self]
      rw [land32_eq_zero_iff] at hb1 hb2
      split_ifs <;> simp_all <;> omega

theorem start_meas_sample_restore_cex :
    (start_meas_sample cexEnvC1 false).log_data.map Prod.fst = ["current", "seconds"] ∧
    cexEnvC1.regs0.enab = 40000 ∧
    (start_meas_sample cexEnvC1 false).regs.enab = 32 := by
  refine ⟨by decide, by decide, by decide⟩

theorem enabWrites_append (a b : List Op) :
    enabWrites (a ++ b) = enabWrites a ++ enabWrites b :=
  List.filterMap_append a b _

theorem ptrWrites_append (a b : List Op) :
    ptrWrites (a ++ b) = ptrWrites a ++ ptrWrites b :=
  List.filterMap_append a b _

theorem ntrWrites_append (a b : List Op) :
    ntrWrites (a ++ b) = ntrWrites a ++ ntrWrites b :=
  List.filterMap_append a b _

theorem enabWrites_ite (c : Prop) [Decidable c] (a b : List Op) :
    enabWrites (if c then a else b) = if c then enabWrites a else enabWrites b :=
  apply_ite enabWrites c a b

theorem ptrWrites_ite (c : Prop) [Decidable c] (a b : List Op) :
    ptrWrites (if c then a else b) = if c then ptrWrites a else ptrWrites b :=
  apply_ite ptrWrites c a b

theorem ntrWrites_ite (c : Prop) [Decidable c] (a b : List Op) :
    ntrWrites (if c then a else b) = if c then ntrWrites a else ntrWrites b :=
  apply_ite ntrWrites c a b

set_option maxRecDepth 8000 in
/-- C2: when the SRQ wait times out, the failure propagates to the caller
(the run does not complete normally), the result mapping holds no data
keys, and the three saved registers are not restored: the only register
writes in the whole trace are the transient edge-configuration writes,
and the enable register is left holding 32. -/
theorem start_meas_sample_timeout_propagates (env : Env) (b : Bool)
    (ht : env.srq_timeout = true) :
    (start_meas_sample env b).ok = false ∧
    (start_meas_sample env b).log_data = [] ∧
    ptrWrites (start_meas_sample env b).tr =
      (if env.regs0.ptr &&& 32 ≠ 0 ∧ env.regs0.ptr - 32 ≤ 32767
        then [env.regs0.ptr - 32] else []) ∧
    ntrWrites (start_meas_sample env b).tr =
      (if env.regs0.ntr &&& 32 = 0 ∧ env.regs0.ntr + 32 ≤ 32767
        then [env.regs0.ntr + 32] else []) ∧
    enabWrites (start_meas_sample env b).tr = [32] ∧
    (start_meas_sample env b).regs.enab = 32 := by
  rcases env with ⟨⟨p0, n0, e0, sr0⟩, ev, sns, sp, it, f, tmo⟩
  cases tmo with
  | false => simp at ht
  | true =>
    by_cases hb1 : p0 &&& 32 = 0 <;> by_cases hb2 : n0 &&& 32 = 0 <;>
      by_cases hv1 : p0 - 32 ≤ 32767 <;> by_cases hv2 : n0 + 32 ≤ 32767 <;>
      cases b
    all_goals
      simp [start_meas_sample, hb1, hb2, hv1, hv2, emit_tr, emit_log, emit_regs,
        finishRun_ok, finishRun_regs, finishRun_log, finishRun_tr,
        opr_ptr_reg_write_tr, opr_ntr_reg_write_tr, opr_enable_reg_write_tr,
        opr_ptr_reg_write_log, opr_ntr_reg_write_log, opr_enable_reg_write_log,
        sre_write_128_tr, sre_write_log, sre_write_regs_enab, sre_write_regs_ptr,
        sre_write_regs_ntr, opr_ptr_reg_write_ptr, opr_ptr_reg_write_ntr,
        opr_ptr_reg_write_enab, opr_ntr_reg_write_ptr, opr_ntr_reg_write_ntr,
        opr_ntr_reg_write_enab, opr_enable_reg_write_enab,
        ptrWrites, ntrWrites, enabWrites, List.filterMap_append]

theorem start_meas_sample_timeout_propagates_witness :
    (start_meas_sample envW2 false).ok = false ∧
    (start_meas_sample envW2 false).log_data = [] ∧
    ptrWrites (start_meas_sample envW2 false).tr =
      (if envW2.regs0.ptr &&& 32 ≠ 0 ∧ envW2.regs0.ptr - 32 ≤ 32767
        then [envW2.regs0.ptr - 32] else []) ∧
    ntrWrites (start_meas_sample envW2 false).tr =
      (if envW2.regs0.ntr &&& 32 = 0 ∧ envW2.regs0.ntr + 32 ≤ 32767
        then [envW2.regs0.ntr + 32] else []) ∧
    enabWrites (start_meas_sample envW2 false).tr = [32] ∧
    (start_meas_sample envW2 false).regs.enab = 32 :=
  start_meas_sample_timeout_propagates envW2 false rfl

set_option maxRecDepth 8000 in
/-- C4: in any run that reaches the restoration step (no SRQ timeout) and
whose saved enable value is accepted by the validator, the enable
register is written exactly twice on the bus: the value 32 at step 5 and
the saved value at the restoration step, with no other enable-register
write in between, so the register holds exactly 32 for the whole
window. -/
theorem start_meas_sample_enable_isolation (env : Env) (b : Bool)
    (ht : env.srq_timeout = false) (he : env.regs0.enab ≤ 32767) :
    enabWrites (start_meas_sample env b).tr = [32, env.regs0.enab] := by
  rcases env with ⟨⟨p0, n0, e0, sr0⟩, ev, sns, sp, it, f, tmo⟩
  cases tmo with
  | true => simp at ht
  | false =>
    have he' : e0 ≤ 32767 := he
    simp [start_meas_sample, he', emit_tr, finishRun_tr,
      opr_ptr_reg_write_tr, opr_ntr_reg_write_tr, opr_enable_reg_write_tr,
      sre_write_128_tr, sre_write_0_tr, S_tr_ite, log_append_tr,
      enabWrites, List.filterMap_append, apply_ite (f := List.filterMap _),
      ite_self]

theorem start_meas_sample_enable_isolation_witness :
    enabWrites (start_meas_sample envW4 false).tr = [32, envW4.regs0.enab] :=
  start_meas_sample_enable_isolation envW4 false rfl (by decide)

theorem ite_append_both {α : Type} (c : Prop) [Decidable c] (l a b : List α) :
    (if c then l ++ a else l ++ b) = l ++ if c then a else b := by
  split_ifs <;> rfl

theorem ite_append_right {α : Type} (c : Prop) [Decidable c] (l a : List α) :
    (if c then l ++ a else l) = l ++ if c then a else [] := by
  split_ifs <;> simp

theorem ite_append_right2 {α : Type} (c : Prop) [Decidable c] (l a : List α) :
    (if c then l else l ++ a) = l ++ if c then [] else a := by
  split_ifs <;> simp

theorem RunOut_tr_ite (c : Prop) [Decidable c] (a b : RunOut) :
    (if c then a else b).tr = if c then a.tr else b.tr :=
  apply_ite RunOut.tr c a b

theorem RunOut_log_ite (c : Prop) [Decidable c] (a b : RunOut) :
    (if c then a else b).log_data = if c then a.log_data else b.log_data :=
  apply_ite RunOut.log_data c a b

theorem ite_append_distrib {α : Type} (c : Prop) [Decidable c] (a b l : List α) :
    (if c then a else b) ++ l = if c then a ++ l else b ++ l := by
  split_ifs <;> rfl

theorem takeWhile_ite {α : Type} (p : α → Bool) (c : Prop) [Decidable c]
    (a b : List α) :
    List.takeWhile p (if c then a else b) =
      if c then List.takeWhile p a else List.takeWhile p b :=
  apply_ite (List.takeWhile p) c a b

set_option maxRecDepth 8000 in
set_option maxHeartbeats 2000000 in
/-- C5: before the enable-register write of step 5, the positive-transition
register receives a bus write exactly when the wait-for-trigger bit (32)
is set in its saved value and the decremented value passes the validator,
and that write carries the value ptr - 32; the negative-transition
register receives a bus write exactly when the bit is clear in its saved
value and the incremented value passes the validator, and that write
carries ntr + 32. In every other case the corresponding register is not
written in that window. -/
theorem start_meas_sample_edge_bit_writes (env : Env) (b : Bool) :
    ptrWrites (preEnabWrite (start_meas_sample env b).tr) =
      (if env.regs0.ptr &&& 32 ≠ 0 ∧ env.regs0.ptr - 32 ≤ 32767
        then [env.regs0.ptr - 32] else []) ∧
    ntrWrites (preEnabWrite (start_meas_sample env b).tr) =
      (if env.regs0.ntr &&& 32 = 0 ∧ env.regs0.ntr + 32 ≤ 32767
        then [env.regs0.ntr + 32] else []) := by
  rcases env with ⟨⟨p0, n0, e0, sr0⟩, ev, sns, sp, it, f, tmo⟩
  by_cases hb1 : p0 &&& 32 = 0 <;> by_cases hb2 : n0 &&& 32 = 0 <;>
    by_cases hv1 : p0 - 32 ≤ 32767 <;> by_cases hv2 : n0 + 32 ≤ 32767 <;> cases b
  all_goals
    simp [start_meas_sample, hb1, hb2, hv1, hv2, emit_tr, finishRun_tr,
      opr_ptr_reg_write_tr, opr_ntr_reg_write_tr, opr_enable_reg_write_tr,
      sre_write_128_tr, sre_write_0_tr, S_tr_ite, RunOut_tr_ite, log_append_tr,
      ite_append_distrib,
      preEnabWrite, takeWhile_ite, List.takeWhile, ptrWrites, ntrWrites,
      ptrWrites_ite, ntrWrites_ite, ite_self, List.filterMap_append]

theorem dropWhile_ite {α : Type} (p : α → Bool) (c : Prop) [Decidable c]
    (a b : List α) :
    List.dropWhile p (if c then a else b) =
      if c then List.dropWhile p a else List.dropWhile p b :=
  apply_ite (List.dropWhile p) c a b

/-- C7 counterexample: on the unexpected-event branch the console report
(the only message of the run, at trace position 11) comes before the
first restoration write (the positive-transition write, at position 12),
so the restoration step is not executed before the condition is
reported. -/
theorem restore_before_report_cex :
    firstMsgIdx (start_meas_sample cexEnvC7 false).tr = 11 ∧
    firstPtrWriteIdx (start_meas_sample cexEnvC7 false).tr = 12 ∧
    ¬ (firstPtrWriteIdx (start_meas_sample cexEnvC7 false).tr <
        firstMsgIdx (start_meas_sample cexEnvC7 false).tr) := by
  refine ⟨by decide, by decide, by decide⟩

set_option maxRecDepth 8000 in
set_option maxHeartbeats 1000000 in
/-- C7 (amended): on the unexpected-event branch (wait-for-trigger bit
clear in the event register, no SRQ timeout, saved values accepted by the
validator), the run still executes the register-restoration step, but
after the console report rather than before it: the trace from the first
console message onward is exactly the unknown-error report followed by
the three restoring writes, and nothing else runs before the method
returns. -/
theorem unexpected_event_restores_after_report (env : Env) (b : Bool)
    (ht : env.srq_timeout = false) (hev : env.event_reg &&& 32 = 0)
    (hp : env.regs0.ptr ≤ 32767) (hn : env.regs0.ntr ≤ 32767)
    (he : env.regs0.enab ≤ 32767) :
    fromFirstMsg (start_meas_sample env b).tr =
      [Op.msg ("Unknown error: event reg " ++ toString env.event_reg),
       Op.writeReg RegId.ptr env.regs0.ptr,
       Op.writeReg RegId.ntr env.regs0.ntr,
       Op.writeReg RegId.enab env.regs0.enab] := by
  rcases env with ⟨⟨p0, n0, e0, sr0⟩, ev, sns, sp, it, f, tmo⟩
  cases tmo with
  | true => simp at ht
  | false =>
    have hp' : p0 ≤ 32767 := hp
    have hn' : n0 ≤ 32767 := hn
    have he' : e0 ≤ 32767 := he
    have hev' : ev &&& 32 = 0 := hev
    by_cases hb1 : p0 &&& 32 = 0 <;> by_cases hb2 : n0 &&& 32 = 0 <;> cases b
    all_goals
      have hv1 : p0 - 32 ≤ 32767 := by omega
      try have hv2 : n0 + 32 ≤ 32767 := by have h2 := (land32_eq_zero_iff n0).mp hb2; omega
      simp [start_meas_sample, hb1, hb2, hev', hp', hn', he', emit_tr,
        finishRun_tr, opr_ptr_reg_write_tr, opr_ntr_reg_write_tr,
        opr_enable_reg_write_tr, sre_write_128_tr, sre_write_0_tr, S_tr_ite,
        RunOut_tr_ite, log_append_tr, ite_append_distrib, fromFirstMsg,
        dropWhile_ite, List.dropWhile, ite_self, *]

theorem unexpected_event_restores_after_report_witness :
    fromFirstMsg (start_meas_sample envW7 false).tr =
      [Op.msg ("Unknown error: event reg " ++ toString envW7.event_reg),
       Op.writeReg RegId.ptr envW7.regs0.ptr,
       Op.writeReg RegId.ntr envW7.regs0.ntr,
       Op.writeReg RegId.enab envW7.regs0.enab] :=
  unexpected_event_restores_after_report envW7 false rfl (by decide)
    (by decide) (by decide) (by decide)

/-- C8 (amended): every value from 0 through 32767 is accepted by the
register_16 validator, so the positive-transition, negative-transition
and enable accessors issue the corresponding SCPI write for it; values
32768 through 65535 are rejected, so a snapshot is writable back exactly
when each component is at most 32767. -/
theorem register_write_accepts_upto_32767 (v : ℕ) (h : v ≤ 32767) (s : S) :
    register_16 v = Except.ok (toString v) ∧
    (opr_ptr_reg_write v s).tr = s.tr ++ [Op.writeReg RegId.ptr v] ∧
    (opr_ntr_reg_write v s).tr = s.tr ++ [Op.writeReg RegId.ntr v] ∧
    (opr_enable_reg_write v s).tr = s.tr ++ [Op.writeReg RegId.enab v] := by
  refine ⟨register_16_eq_ok v h, ?_, ?_, ?_⟩ <;>
    simp [opr_ptr_reg_write_tr, opr_ntr_reg_write_tr, opr_enable_reg_write_tr, h]

theorem register_write_accepts_upto_32767_witness :
    register_16 7 = Except.ok (toString 7) ∧
    (opr_ptr_reg_write 7 sW8).tr = sW8.tr ++ [Op.writeReg RegId.ptr 7] ∧
    (opr_ntr_reg_write 7 sW8).tr = sW8.tr ++ [Op.writeReg RegId.ntr 7] ∧
    (opr_enable_reg_write 7 sW8).tr = sW8.tr ++ [Op.writeReg RegId.enab 7] :=
  register_write_accepts_upto_32767 7 (by norm_num) sW8

/-- C8 counterexample: 32768 is a 16-bit unsigned value, yet the
register_16 validator rejects it, so the enable accessor prints a warning
instead of issuing the SCPI write and the register keeps its old
value. -/
theorem register_write_uint16_cex :
    (32768 : ℕ) ≤ 65535 ∧
    register_16 32768 = Except.error err_register_16 ∧
    (opr_enable_reg_write 32768 sW8).tr = [Op.msg err_register_16] ∧
    (opr_enable_reg_write 32768 sW8).regs.enab = 0 := by
  refine ⟨by norm_num, by rfl, by decide, by decide⟩

set_option maxRecDepth 8000 in
/-- C3: for every configured sample count n and positive integration time
t, the seconds entry of the result mapping is the arithmetic progression
0, t, 2t, ... with exactly n elements (end bound n * t excluded). -/
theorem seconds_axis (env : Env) (b : Bool) (n : ℕ)
    (ht : env.srq_timeout = false) (hev : env.event_reg &&& 32 ≠ 0)
    (hsp : env.sample_points = (n : ℚ)) (hpos : 0 < env.integration_time) :
    List.lookup "seconds" (start_meas_sample env b).log_data =
      some ((List.range n).map (fun i => (i : ℚ) * env.integration_time)) := by
  rcases env with ⟨⟨p0, n0, e0, sr0⟩, ev, sns, sp, it, f, tmo⟩
  cases tmo with
  | true => simp at ht
  | false =>
    have hsp' : sp = (n : ℚ) := hsp
    have hpos' : (0 : ℚ) < it := hpos
    have hev' : ev &&& 32 ≠ 0 := hev
    subst hsp'
    by_cases hc : py_in_str sns "\"CURR\"" = true <;>
      by_cases hv : py_in_str sns "\"VOLT\"" = true
    all_goals
      simp [start_meas_sample, hev', hc, hv, emit_log, log_append_log,
        finishRun_log, opr_ptr_reg_write_log, opr_ntr_reg_write_log,
        opr_enable_reg_write_log, sre_write_log, S_log_ite, RunOut_log_ite,
        ite_self, np_arange_progression n it hpos', List.lookup]

theorem seconds_axis_witness :
    List.lookup "seconds" (start_meas_sample envW3 false).log_data =
      some [0, 1/500, 1/250, 3/500, 1/125] := by
  have h := seconds_axis envW3 false 5 rfl (by decide) (by norm_num [envW3])
    (by norm_num [envW3])
  rw [h]
  simp [List.range_succ, envW3]
  norm_num

theorem start_meas_sample_restores_registers_witness :
    (start_meas_sample envW1 false).regs.ptr = envW1.regs0.ptr ∧
    (start_meas_sample envW1 false).regs.ntr = envW1.regs0.ntr ∧
    (start_meas_sample envW1 false).regs.enab = envW1.regs0.enab :=
  start_meas_sample_restores_registers envW1 false rfl (by decide)

set_option maxRecDepth 8000 in
/-- C6: in a completed run with a successful trigger whose configured
sense string is CURR, the sequencer issues the current fetch query and
the result mapping carries exactly the keys current and seconds, with no
voltage key. -/
theorem curr_sense_run (env : Env) (b : Bool)
    (ht : env.srq_timeout = false) (hev : env.event_reg &&& 32 ≠ 0)
    (hs : env.sense = "CURR") :
    Op.query "FETC:ARR:CURR?" ∈ (start_meas_sample env b).tr ∧
    (start_meas_sample env b).log_data.map Prod.fst = ["current", "seconds"] ∧
    "voltage" ∉ (start_meas_sample env b).log_data.map Prod.fst := by
  rcases env with ⟨⟨p0, n0, e0, sr0⟩, ev, sns, sp, it, f, tmo⟩
  cases tmo with
  | true => simp at ht
  | false =>
    have hev' : ev &&& 32 ≠ 0 := hev
    have hs' : sns = "CURR" := hs
    subst hs'
    have hc : py_in_str "CURR" "\"CURR\"" = true := by decide
    cases b
    all_goals
      refine ⟨?_, ?_, ?_⟩ <;>
        simp [start_meas_sample, hev', hc, emit_tr, emit_log, finishRun_tr,
          finishRun_log, log_append_tr, log_append_log, opr_ptr_reg_write_tr,
          opr_ntr_reg_write_tr, opr_enable_reg_write_tr, opr_ptr_reg_write_log,
          opr_ntr_reg_write_log, opr_enable_reg_write_log, sre_write_128_tr,
          sre_write_0_tr, sre_write_log, S_tr_ite, S_log_ite, RunOut_tr_ite,
          RunOut_log_ite, ite_self]

theorem curr_sense_run_witness :
    Op.query "FETC:ARR:CURR?" ∈ (start_meas_sample envW6 false).tr ∧
    (start_meas_sample envW6 false).log_data.map Prod.fst = ["current", "seconds"] ∧
    "voltage" ∉ (start_meas_sample envW6 false).log_data.map Prod.fst :=
  curr_sense_run envW6 false rfl (by decide) rfl

set_option maxRecDepth 8000 in
/-- C9: a completed run leaves the caller an empty mapping when the
unexpected-event branch was taken, and a mapping from channel names
(one measured quantity plus the seconds axis) to sample sequences when
data was ready. -/
theorem result_mapping_shape (env : Env) (b : Bool)
    (ht : env.srq_timeout = false) :
    (env.event_reg &&& 32 = 0 → (start_meas_sample env b).log_data = []) ∧
    (env.event_reg &&& 32 ≠ 0 →
      ∃ k, (k = "current" ∨ k = "voltage") ∧
        (start_meas_sample env b).log_data.map Prod.fst = [k, "seconds"]) := by
  rcases env with ⟨⟨p0, n0, e0, sr0⟩, ev, sns, sp, it, f, tmo⟩
  cases tmo with
  | true => simp at ht
  | false =>
    constructor
    · intro hev
      simp [start_meas_sample, hev, emit_log, log_append_log, finishRun_log,
        opr_ptr_reg_write_log, opr_ntr_reg_write_log, opr_enable_reg_write_log,
        sre_write_log, S_log_ite, RunOut_log_ite, ite_self]
    · intro hev
      by_cases hc : py_in_str sns "\"CURR\"" = true <;>
        by_cases hv : py_in_str sns "\"VOLT\"" = true <;>
        [exact ⟨"current", Or.inl rfl, by
          simp [start_meas_sample, hev, hc, emit_log, log_append_log,
            finishRun_log, opr_ptr_reg_write_log, opr_ntr_reg_write_log,
            opr_enable_reg_write_log, sre_write_log, S_log_ite, RunOut_log_ite,
            ite_self]⟩;
         exact ⟨"current", Or.inl rfl, by
          simp [start_meas_sample, hev, hc, emit_log, log_append_log,
            finishRun_log, opr_ptr_reg_write_log, opr_ntr_reg_write_log,
            opr_enable_reg_write_log, sre_write_log, S_log_ite, RunOut_log_ite,
            ite_self]⟩;
         exact ⟨"voltage", Or.inr rfl, by
          simp [start_meas_sample, hev, hc, hv, emit_log, log_append_log,
            finishRun_log, opr_ptr_reg_write_log, opr_ntr_reg_write_log,
            opr_enable_reg_write_log, sre_write_log, S_log_ite, RunOut_log_ite,
            ite_self]⟩;
         exact ⟨"voltage", Or.inr rfl, by
          simp [start_meas_sample, hev, hc, hv, emit_log, log_append_log,
            finishRun_log, opr_ptr_reg_write_log, opr_ntr_reg_write_log,
            opr_enable_reg_write_log, sre_write_log, S_log_ite, RunOut_log_ite,
            ite_self]⟩]

theorem result_mapping_shape_witness :
    (start_meas_sample envW9 false).log_data = [] :=
  (result_mapping_shape envW9 false rfl).1 (by decide)

set_option maxRecDepth 8000 in
/-- C10: branch selection tests Python substring containment of the sense
string in the literal quoted CURR, then quoted VOLT: a sense contained in
the CURR literal (the empty string included) selects the current fetch
and the current key; one contained only in the VOLT literal selects the
voltage fetch; anything else falls through to the DVM fetch, stored
under the voltage key. -/
theorem fetch_branch_selection (env : Env) (b : Bool)
    (ht : env.srq_timeout = false) (hev : env.event_reg &&& 32 ≠ 0) :
    (py_in_str env.sense "\"CURR\"" = true →
      Op.query "FETC:ARR:CURR?" ∈ (start_meas_sample env b).tr ∧
      (start_meas_sample env b).log_data.map Prod.fst = ["current", "seconds"]) ∧
    (py_in_str env.sense "\"CURR\"" = false → py_in_str env.sense "\"VOLT\"" = true →
      Op.query "FETC:ARR:VOLT?" ∈ (start_meas_sample env b).tr ∧
      (start_meas_sample env b).log_data.map Prod.fst = ["voltage", "seconds"]) ∧
    (py_in_str env.sense "\"CURR\"" = false → py_in_str env.sense "\"VOLT\"" = false →
      Op.query "FETC:ARR:DVM?" ∈ (start_meas_sample env b).tr ∧
      (start_meas_sample env b).log_data.map Prod.fst = ["voltage", "seconds"]) ∧
    py_in_str "" "\"CURR\"" = true := by
  rcases env with ⟨⟨p0, n0, e0, sr0⟩, ev, sns, sp, it, f, tmo⟩
  cases tmo with
  | true => simp at ht
  | false =>
    have hev' : ev &&& 32 ≠ 0 := hev
    refine ⟨fun hc => ?_, fun hc hv => ?_, fun hc hv => ?_, by decide⟩ <;>
      cases b <;>
      refine ⟨?_, ?_⟩ <;>
        simp [start_meas_sample, hev', hc, emit_tr, emit_log, finishRun_tr,
          finishRun_log, log_append_tr, log_append_log, opr_ptr_reg_write_tr,
          opr_ntr_reg_write_tr, opr_enable_reg_write_tr, opr_ptr_reg_write_log,
          opr_ntr_reg_write_log, opr_enable_reg_write_log, sre_write_128_tr,
          sre_write_0_tr, sre_write_log, S_tr_ite, S_log_ite, RunOut_tr_ite,
          RunOut_log_ite, ite_self, *]

theorem fetch_branch_selection_witness :
    Op.query "FETC:ARR:CURR?" ∈ (start_meas_sample envW10 false).tr ∧
    (start_meas_sample envW10 false).log_data.map Prod.fst = ["current", "seconds"] :=
  (fetch_branch_selection envW10 false rfl (by decide)).1 (by decide)

end Agilent663
